import Mathlib

/-!
Verification of the `gosveltekit` backend entry point
(`backend/cmd/server/server.go`) and, where the spec is the only source,
of the authentication manager described by the design document.

The Go program is embedded shallowly:
* the user table is a `List User`;
* GORM's `db.Where(User{Username: "admin"}).FirstOrCreate(...)` becomes
  `firstOrCreate`, a find-then-append on the list keyed on the username;
* the control flow of `main` becomes `runMain`, a pure function from the
  outcomes of its effectful calls (config load, DB open, migration, bcrypt
  hash generation, the conditional insert, `router.Run`) to the event trace
  it emits, the process exit code, and the final user table;
* the external `bcrypt.GenerateFromPassword` is an abstract parameter
  `bch : String → Nat → String` (its cost argument is `bcrypt.DefaultCost`,
  which is 10 in `golang.org/x/crypto/bcrypt`).
-/

/-- The fields of `models.User` that `main` sets when bootstrapping the
admin account (the `models` package itself is outside the visible source;
these five fields are exactly the ones the entry point writes). -/
structure User where
  username : String
  email : String
  displayName : String
  passwordHash : String
  role : String
deriving Repr, DecidableEq

/-- `bcrypt.DefaultCost` from `golang.org/x/crypto/bcrypt`. -/
def bcryptDefaultCost : Nat := 10

/-- Lookup a user record by username, as GORM's
`Where(models.User{Username: u}).First` would. -/
def findByUsername (db : List User) (u : String) : Option User :=
  db.find? (fun r => r.username == u)

/-- GORM's `Where(models.User{Username: cond}).FirstOrCreate(&attrs)`:
return the first record matching the condition if one exists (rows
affected 0), otherwise insert `attrs` (rows affected 1). -/
def firstOrCreate (db : List User) (cond : String) (attrs : User) :
    List User × User × Nat :=
  match findByUsername db cond with
  | some r => (db, r, 0)
  | none => (db ++ [attrs], attrs, 1)

/-- The record `main` passes to `FirstOrCreate`, given the password hash
string it computed. -/
def adminUser (pw : String) : User :=
  { username := "admin"
    email := "onyx.views5004@eagereverest.com"
    displayName := "Administrator"
    passwordHash := pw
    role := "admin" }

/-- The bootstrap write of `main`: hash the plaintext `"admin"` with
bcrypt at the default cost (`hok = false` models a failing
`bcrypt.GenerateFromPassword`, after which `string(passwordHash)` is the
empty string), then find-or-create the admin row. -/
def bootstrapAdmin (bch : String → Nat → String) (hok : Bool)
    (db : List User) : List User :=
  let pw := if hok then bch "admin" bcryptDefaultCost else ""
  (firstOrCreate db "admin" (adminUser pw)).1

/-- Whether the table already holds a record with username `"admin"`. -/
def hasAdmin (db : List User) : Bool :=
  db.any (fun r => r.username == "admin")

/-- Number of records with username `"admin"`. -/
def countAdmin (db : List User) : Nat :=
  (db.filter (fun r => r.username == "admin")).length

/-- The observable steps of `main`, in program order: logger setup, log
lines, the conditional insert, adapter/router construction, and the
listen call. -/
inductive Event where
  | loggerSetup (level format : String)
  | logError (message : String)
  | logInfo (message : String)
  | bootstrapWrite
  | adapterSetup
  | routerSetup
  | listen (addr : String)
deriving Repr, DecidableEq

/-- The fields of `config.Config` that `main` reads. -/
structure Config where
  logLevel : String
  logFormat : String
  dsn : String
  serverPort : Int
deriving Repr, DecidableEq

/-- Outcomes of the effectful calls `main` makes, supplied as inputs to
the embedding: `configResult = none` models a `config.LoadConfig` error,
the booleans model success of `gorm.Open`, `AutoMigrate`,
`bcrypt.GenerateFromPassword`, `FirstOrCreate`, and `r.Run`. -/
structure MainInputs where
  configResult : Option Config
  dbOpenOk : Bool
  migrateOk : Bool
  hashOk : Bool
  firstOrCreateOk : Bool
  runOk : Bool
deriving Repr, DecidableEq

/-- What a run of `main` produces: the emitted event trace, the exit code
(`some 1` for `os.Exit(1)`, `none` when `r.Run` blocks serving), and the
final state of the user table. -/
structure MainResult where
  events : List Event
  exitCode : Option Nat
  finalDb : List User
deriving Repr, DecidableEq

/-- The listen address: `":8080"` when the configured port is 0,
`fmt.Sprintf(":%d", port)` otherwise. -/
def portString (p : Int) : String :=
  if p = 0 then ":8080" else ":" ++ toString p

/-- Shallow embedding of `main` from `backend/cmd/server/server.go`,
following its control flow line by line. -/
def runMain (bch : String → Nat → String) (inp : MainInputs)
    (db : List User) : MainResult :=
  match inp.configResult with
  | none =>
    { events := [Event.loggerSetup "info" "text",
                 Event.logError "Falha ao carregar as configurações"]
      exitCode := some 1
      finalDb := db }
  | some cfg =>
    let lvl := if cfg.logLevel = "" then "info" else cfg.logLevel
    let fmtv := if cfg.logFormat = "" then "text" else cfg.logFormat
    let ev0 := [Event.loggerSetup lvl fmtv, Event.logInfo "Iniciando servidor"]
    if inp.dbOpenOk = false then
      { events := ev0 ++ [Event.logError "Falha ao conectar ao banco de dados"]
        exitCode := some 1
        finalDb := db }
    else
      let ev1 := ev0 ++ [Event.logInfo "Conectado ao banco de dados"]
      if inp.migrateOk = false then
        { events := ev1 ++ [Event.logError "Falha ao executar migrações"]
          exitCode := some 1
          finalDb := db }
      else
        let ev2 := ev1 ++ [Event.logInfo "Migrações executadas com sucesso"]
        let ev3 := if inp.hashOk then ev2
          else ev2 ++ [Event.logError "Falha ao gerar hash da senha do admin"]
        let db2 := if inp.firstOrCreateOk then bootstrapAdmin bch inp.hashOk db
          else db
        let ev4 := ev3 ++ [Event.bootstrapWrite]
        let ev5 := if inp.firstOrCreateOk then ev4
          else ev4 ++ [Event.logError "Falha ao criar usuário admin"]
        let ev6 := ev5 ++ [Event.logInfo "Usuário admin verificado",
                           Event.adapterSetup, Event.routerSetup]
        let addr := portString cfg.serverPort
        let ev7 := ev6 ++ [Event.logInfo "Servidor iniciado", Event.listen addr]
        if inp.runOk then
          { events := ev7, exitCode := none, finalDb := db2 }
        else
          { events := ev7 ++ [Event.logError "Erro ao iniciar servidor"]
            exitCode := some 1
            finalDb := db2 }

/-- `true` iff no `logError`/`logInfo` event occurs before the first
`loggerSetup` event of the trace. -/
def noLogBeforeSetup : List Event → Bool
  | [] => true
  | Event.loggerSetup _ _ :: _ => true
  | Event.logError _ :: _ => false
  | Event.logInfo _ :: _ => false
  | _ :: rest => noLogBeforeSetup rest

/-- Modelled from the spec: the error taxonomy of §7 of the design
document; the `internal/auth` package itself is not part of the visible
source. -/
inductive AuthError where
  | invalidCredentials
  | sessionInvalid
  | userNotFound
  | duplicateIdentifier
  | storageUnavailable
deriving Repr, DecidableEq

/-- Modelled from the spec: a session record per §3 — token, owning user
identifier, creation and expiry timestamps. -/
structure Session where
  token : String
  userId : String
  createdAt : Nat
  expiresAt : Nat
deriving Repr, DecidableEq

/-- Modelled from the spec: the credential store's
`FindByIdentifier(id) -> User | absent` of §4.2, with the identifier being
the stable key (username or email, per §2 and §3). -/
def findByIdentifier (store : List User) (id : String) : Option User :=
  store.find? (fun r => r.username == id || r.email == id)

/-- Modelled from the spec: `AuthManager.Authenticate` of §4.1
(`internal/auth` is not under the visible source). Looks the user up by
identifier, fails with `invalidCredentials` when absent; otherwise checks
the supplied password against the stored hash via the abstract one-way
comparison `verify`, failing with `invalidCredentials` on mismatch and
minting a session with expiry `now + ttl` on match. -/
def Authenticate (store : List User) (verify : String → String → Bool)
    (now ttl : Nat) (freshToken : String) (identifier password : String) :
    Except AuthError Session :=
  match findByIdentifier store identifier with
  | none => Except.error AuthError.invalidCredentials
  | some u =>
    if verify password u.passwordHash then
      Except.ok { token := freshToken
                  userId := u.username
                  createdAt := now
                  expiresAt := now + ttl }
    else Except.error AuthError.invalidCredentials

/-! ## Helper lemmas about the bootstrap write -/

theorem bootstrapAdmin_of_found {db : List User} {r : User}
    (h : findByUsername db "admin" = some r)
    (bch : String → Nat → String) (hok : Bool) :
    bootstrapAdmin bch hok db = db := by
  simp [bootstrapAdmin, firstOrCreate, h]

theorem bootstrapAdmin_of_not_found {db : List User}
    (h : findByUsername db "admin" = none)
    (bch : String → Nat → String) (hok : Bool) :
    bootstrapAdmin bch hok db =
      db ++ [adminUser (if hok then bch "admin" bcryptDefaultCost else "")] := by
  simp [bootstrapAdmin, firstOrCreate, h]

theorem hasAdmin_false_iff (db : List User) :
    hasAdmin db = false ↔ findByUsername db "admin" = none := by
  simp [hasAdmin, findByUsername, List.any_eq_false, List.find?_eq_none]

theorem countAdmin_eq_zero {db : List User}
    (h : findByUsername db "admin" = none) : countAdmin db = 0 := by
  rw [findByUsername] at h
  rw [countAdmin, List.filter_eq_nil_iff.mpr (List.find?_eq_none.mp h)]
  rfl

theorem findByUsername_after_create (db : List User) (pw : String)
    (h : findByUsername db "admin" = none) :
    findByUsername (db ++ [adminUser pw]) "admin" = some (adminUser pw) := by
  rw [findByUsername] at h ⊢
  rw [List.find?_append, h]
  simp [adminUser]

/-- C1: running the bootstrap twice against the same storage yields exactly
one record with username `"admin"`, and on a storage that already contains
such a record the find-or-create is a no-op (the record, its password hash
included, is unchanged): the write is idempotent, a no-op when an admin
record exists, and produces exactly one admin record otherwise. -/
theorem bootstrap_find_or_create_stable (bch : String → Nat → String)
    (hok : Bool) (db : List User) :
    bootstrapAdmin bch hok (bootstrapAdmin bch hok db) = bootstrapAdmin bch hok db
    ∧ (hasAdmin db = true → bootstrapAdmin bch hok db = db)
    ∧ (hasAdmin db = false → countAdmin (bootstrapAdmin bch hok db) = 1) := by
  cases h : findByUsername db "admin" with
  | some r =>
    have noop := bootstrapAdmin_of_found h bch hok
    refine ⟨by rw [noop]; exact noop, fun _ => noop, fun hfalse => ?_⟩
    rw [(hasAdmin_false_iff db).mp hfalse] at h
    exact absurd h (by simp)
  | none =>
    have created := bootstrapAdmin_of_not_found h bch hok
    have hfind2 := findByUsername_after_create db
      (if hok then bch "admin" bcryptDefaultCost else "") h
    refine ⟨?_, fun htrue => ?_, fun _ => ?_⟩
    · rw [created, bootstrapAdmin_of_found hfind2 bch hok]
    · rw [(hasAdmin_false_iff db).mpr h] at htrue
      exact absurd htrue (by simp)
    · rw [created, countAdmin, List.filter_append]
      have hnil : db.filter (fun r => r.username == "admin") = [] := by
        rw [findByUsername] at h
        exact List.filter_eq_nil_iff.mpr (List.find?_eq_none.mp h)
      simp [hnil, adminUser]

/-- Witness for C1 at concrete inputs: a fresh store ends with exactly one
admin record, and a store already holding an admin record is untouched. -/
theorem bootstrap_find_or_create_stable_witness :
    countAdmin (bootstrapAdmin (fun _ _ => "HASHED") true []) = 1
    ∧ bootstrapAdmin (fun _ _ => "HASHED") true [adminUser "H0"] = [adminUser "H0"] :=
  ⟨(bootstrap_find_or_create_stable (fun _ _ => "HASHED") true []).2.2 (by decide),
   (bootstrap_find_or_create_stable (fun _ _ => "HASHED") true [adminUser "H0"]).2.1
     (by simp [hasAdmin, adminUser])⟩

theorem countAdmin_append_admin (db : List User) (pw : String) :
    countAdmin (db ++ [adminUser pw]) = countAdmin db + 1 := by
  rw [countAdmin, List.filter_append]
  simp [countAdmin, adminUser]

/-- C3: on a first run against storage with no user named `"admin"`, the
bootstrap creates exactly one record, with username `"admin"`, role
`"admin"`, display name `"Administrator"`, and password hash the result of
bcrypt (at the default cost) applied to the plaintext `"admin"`. -/
theorem bootstrap_first_run_creates_admin (bch : String → Nat → String)
    (db : List User) (h : hasAdmin db = false) :
    bootstrapAdmin bch true db = db ++ [adminUser (bch "admin" bcryptDefaultCost)]
    ∧ (adminUser (bch "admin" bcryptDefaultCost)).username = "admin"
    ∧ (adminUser (bch "admin" bcryptDefaultCost)).role = "admin"
    ∧ (adminUser (bch "admin" bcryptDefaultCost)).displayName = "Administrator"
    ∧ (adminUser (bch "admin" bcryptDefaultCost)).passwordHash
        = bch "admin" bcryptDefaultCost
    ∧ countAdmin (bootstrapAdmin bch true db) = 1 := by
  have hn := (hasAdmin_false_iff db).mp h
  have created := bootstrapAdmin_of_not_found hn bch true
  simp only [if_pos] at created
  refine ⟨created, rfl, rfl, rfl, rfl, ?_⟩
  rw [created, countAdmin_append_admin, countAdmin_eq_zero hn]

/-- Witness for C3: the first run on an empty store appends exactly the
admin record with the bcrypt hash of `"admin"`. -/
theorem bootstrap_first_run_creates_admin_witness :
    bootstrapAdmin (fun _ _ => "HASHED") true []
      = [adminUser "HASHED"]
    ∧ countAdmin (bootstrapAdmin (fun _ _ => "HASHED") true []) = 1 := by
  have h := bootstrap_first_run_creates_admin (fun _ _ => "HASHED") [] (by decide)
  exact ⟨h.1, h.2.2.2.2.2⟩

/-- C6: the bootstrap admin record's password field holds only the bcrypt
hash (or, on hash failure, the empty string), never the plaintext: every
admin-named record of the resulting store has a password hash equal to the
hash output, and distinct from the plaintext `"admin"` whenever the hash
output is. -/
theorem admin_password_stored_hashed (bch : String → Nat → String)
    (hok : Bool) (db : List User) (h : hasAdmin db = false) :
    (bootstrapAdmin bch hok db).filter (fun r => r.username == "admin")
      = [adminUser (if hok then bch "admin" bcryptDefaultCost else "")]
    ∧ (adminUser (if hok then bch "admin" bcryptDefaultCost else "")).passwordHash
      = (if hok then bch "admin" bcryptDefaultCost else "")
    ∧ (bch "admin" bcryptDefaultCost ≠ "admin" →
        ∀ r ∈ bootstrapAdmin bch hok db, r.username = "admin" →
          r.passwordHash ≠ "admin") := by
  have hn := (hasAdmin_false_iff db).mp h
  have created := bootstrapAdmin_of_not_found hn bch
  have hnil : db.filter (fun r => r.username == "admin") = [] := by
    rw [findByUsername] at hn
    exact List.filter_eq_nil_iff.mpr (List.find?_eq_none.mp hn)
  refine ⟨?_, rfl, fun hne r hr hu => ?_⟩
  · rw [created hok, List.filter_append, hnil]
    simp [adminUser]
  · rw [created hok] at hr
    rcases List.mem_append.mp hr with hmem | hmem
    · rw [findByUsername] at hn
      have := List.find?_eq_none.mp hn r hmem
      simp [hu] at this
    · have : r = adminUser (if hok then bch "admin" bcryptDefaultCost else "") := by
        simpa using hmem
      subst this
      cases hok with
      | true => simpa [adminUser] using hne
      | false => simp [adminUser]

/-- Witness for C6: at a concrete hash function whose output differs from
the plaintext, the stored value on an empty store is the hash output. -/
theorem admin_password_stored_hashed_witness :
    ((bootstrapAdmin (fun _ _ => "HASHED") true []).filter
        (fun r => r.username == "admin")
      = [adminUser "HASHED"])
    ∧ (∀ r ∈ bootstrapAdmin (fun _ _ => "HASHED") true [],
        r.username = "admin" → r.passwordHash ≠ "admin") := by
  have h := admin_password_stored_hashed (fun _ _ => "HASHED") true [] (by decide)
  exact ⟨h.1, h.2.2 (by decide)⟩

/-- C5: whether the identifier is absent from the credential store or the
password fails verification against the stored hash, `Authenticate` fails
with the same error kind, `invalidCredentials`, so the two causes are
indistinguishable to the caller. -/
theorem authenticate_enumeration_safe (store : List User)
    (verify : String → String → Bool) (now ttl : Nat) (tok id pw : String) :
    (findByIdentifier store id = none →
      Authenticate store verify now ttl tok id pw
        = Except.error AuthError.invalidCredentials)
    ∧ (∀ u, findByIdentifier store id = some u →
        verify pw u.passwordHash = false →
        Authenticate store verify now ttl tok id pw
          = Except.error AuthError.invalidCredentials) := by
  constructor
  · intro h
    simp [Authenticate, h]
  · intro u h hv
    simp [Authenticate, h, hv]

/-- Witness for C5: at a concrete store, an unknown identifier and a wrong
password produce the very same error value. -/
theorem authenticate_enumeration_safe_witness :
    Authenticate [adminUser "H"] (fun p s => p == s) 0 3600 "tok" "nobody" "x"
      = Except.error AuthError.invalidCredentials
    ∧ Authenticate [adminUser "H"] (fun p s => p == s) 0 3600 "tok" "admin" "wrong"
      = Except.error AuthError.invalidCredentials :=
  ⟨(authenticate_enumeration_safe [adminUser "H"] (fun p s => p == s)
      0 3600 "tok" "nobody" "x").1 (by decide),
   (authenticate_enumeration_safe [adminUser "H"] (fun p s => p == s)
      0 3600 "tok" "admin" "wrong").2 (adminUser "H") (by decide) (by decide)⟩

/-- C7: in every execution of `main`, logger setup precedes every logging
call — on the config-failure path the defaults `("info", "text")` are
installed before the error is logged, and on the success path the
configured (or defaulted) level and format are installed before any
Info/Error call. -/
theorem logger_setup_before_logging (bch : String → Nat → String)
    (inp : MainInputs) (db : List User) :
    noLogBeforeSetup (runMain bch inp db).events = true := by
  cases hc : inp.configResult with
  | none => simp [runMain, hc, noLogBeforeSetup]
  | some cfg =>
    cases hdb : inp.dbOpenOk <;> cases hmig : inp.migrateOk <;>
      cases hh : inp.hashOk <;> cases hf : inp.firstOrCreateOk <;>
      cases hr : inp.runOk <;>
      simp [runMain, hc, hdb, hmig, hh, hf, hr, noLogBeforeSetup]

/-- C8: when configuration loading, the database connection, or the
migration fails, `main` exits with code 1 before the bootstrap: the user
table is untouched and no conditional-insert event occurs. -/
theorem early_failure_exits_before_bootstrap (bch : String → Nat → String)
    (inp : MainInputs) (db : List User)
    (h : inp.configResult = none ∨ inp.dbOpenOk = false ∨ inp.migrateOk = false) :
    (runMain bch inp db).exitCode = some 1
    ∧ (runMain bch inp db).finalDb = db
    ∧ Event.bootstrapWrite ∉ (runMain bch inp db).events := by
  cases hc : inp.configResult with
  | none => simp [runMain, hc]
  | some cfg =>
    cases hdb : inp.dbOpenOk with
    | false => simp [runMain, hc, hdb]
    | true =>
      cases hmig : inp.migrateOk with
      | false => simp [runMain, hc, hdb, hmig]
      | true => simp_all

/-- Witness for C8: a failing config load exits with code 1 and writes
nothing. -/
theorem early_failure_exits_before_bootstrap_witness :
    (runMain (fun _ _ => "H") ⟨none, true, true, true, true, true⟩ []).exitCode = some 1
    ∧ (runMain (fun _ _ => "H") ⟨none, true, true, true, true, true⟩ []).finalDb = []
    ∧ Event.bootstrapWrite ∉
        (runMain (fun _ _ => "H") ⟨none, true, true, true, true, true⟩ []).events :=
  early_failure_exits_before_bootstrap (fun _ _ => "H")
    ⟨none, true, true, true, true, true⟩ [] (Or.inl rfl)

/-- C4: a bootstrap failure (hash generation or the conditional insert) is
logged and execution continues: the process does not exit, and adapter
construction, router setup and the listen call still happen. -/
theorem bootstrap_failure_continues (bch : String → Nat → String)
    (inp : MainInputs) (db : List User) (cfg : Config)
    (hcfg : inp.configResult = some cfg) (hdb : inp.dbOpenOk = true)
    (hmig : inp.migrateOk = true)
    (hfail : inp.hashOk = false ∨ inp.firstOrCreateOk = false)
    (hrun : inp.runOk = true) :
    (runMain bch inp db).exitCode = none
    ∧ (∃ m, Event.logError m ∈ (runMain bch inp db).events)
    ∧ Event.adapterSetup ∈ (runMain bch inp db).events
    ∧ Event.routerSetup ∈ (runMain bch inp db).events
    ∧ Event.listen (portString cfg.serverPort) ∈ (runMain bch inp db).events := by
  rcases hfail with hf | hf
  · refine ⟨?_, ⟨"Falha ao gerar hash da senha do admin", ?_⟩, ?_, ?_, ?_⟩ <;>
      cases hfoc : inp.firstOrCreateOk <;>
      simp [runMain, hcfg, hdb, hmig, hf, hfoc, hrun]
  · refine ⟨?_, ⟨"Falha ao criar usuário admin", ?_⟩, ?_, ?_, ?_⟩ <;>
      cases hh : inp.hashOk <;>
      simp [runMain, hcfg, hdb, hmig, hf, hh, hrun]

/-- Witness for C4: with a failing bcrypt call on an otherwise healthy
run, the process reaches the listen step without exiting. -/
theorem bootstrap_failure_continues_witness :
    (runMain (fun _ _ => "H")
        ⟨some ⟨"", "", "d", 0⟩, true, true, false, true, true⟩ []).exitCode = none
    ∧ Event.routerSetup ∈
        (runMain (fun _ _ => "H")
          ⟨some ⟨"", "", "d", 0⟩, true, true, false, true, true⟩ []).events :=
  ⟨(bootstrap_failure_continues (fun _ _ => "H")
      ⟨some ⟨"", "", "d", 0⟩, true, true, false, true, true⟩ [] ⟨"", "", "d", 0⟩
      rfl rfl rfl (Or.inl rfl) rfl).1,
   (bootstrap_failure_continues (fun _ _ => "H")
      ⟨some ⟨"", "", "d", 0⟩, true, true, false, true, true⟩ [] ⟨"", "", "d", 0⟩
      rfl rfl rfl (Or.inl rfl) rfl).2.2.2.1⟩

/-- C9: when the bcrypt hash generation fails, `main` logs the error but
still performs the find-or-create, attempting to create the admin user
with an empty password hash. -/
theorem hash_failure_attempts_empty_hash (bch : String → Nat → String)
    (inp : MainInputs) (db : List User) (cfg : Config)
    (hcfg : inp.configResult = some cfg) (hdb : inp.dbOpenOk = true)
    (hmig : inp.migrateOk = true) (hhash : inp.hashOk = false)
    (hfoc : inp.firstOrCreateOk = true) :
    Event.logError "Falha ao gerar hash da senha do admin"
        ∈ (runMain bch inp db).events
    ∧ Event.bootstrapWrite ∈ (runMain bch inp db).events
    ∧ (runMain bch inp db).finalDb = (firstOrCreate db "admin" (adminUser "")).1 := by
  cases hrun : inp.runOk <;>
    simp [runMain, hcfg, hdb, hmig, hhash, hfoc, hrun, bootstrapAdmin]

/-- Witness for C9: on a concrete run with a failing bcrypt call the empty
hash is what reaches the store. -/
theorem hash_failure_attempts_empty_hash_witness :
    Event.bootstrapWrite ∈
      (runMain (fun _ _ => "H")
        ⟨some ⟨"", "", "d", 0⟩, true, true, false, true, true⟩ []).events
    ∧ (runMain (fun _ _ => "H")
        ⟨some ⟨"", "", "d", 0⟩, true, true, false, true, true⟩ []).finalDb
      = [adminUser ""] :=
  ⟨(hash_failure_attempts_empty_hash (fun _ _ => "H")
      ⟨some ⟨"", "", "d", 0⟩, true, true, false, true, true⟩ [] ⟨"", "", "d", 0⟩
      rfl rfl rfl rfl rfl).2.1,
   (hash_failure_attempts_empty_hash (fun _ _ => "H")
      ⟨some ⟨"", "", "d", 0⟩, true, true, false, true, true⟩ [] ⟨"", "", "d", 0⟩
      rfl rfl rfl rfl rfl).2.2⟩

/-- C10: the server listens on `":8080"` when the configured port is 0 and
on `":<port>"` otherwise, for every run that reaches the listen step. -/
theorem listen_address_from_port (bch : String → Nat → String)
    (inp : MainInputs) (db : List User) (cfg : Config)
    (hcfg : inp.configResult = some cfg) (hdb : inp.dbOpenOk = true)
    (hmig : inp.migrateOk = true) :
    Event.listen (portString cfg.serverPort) ∈ (runMain bch inp db).events
    ∧ (cfg.serverPort = 0 → portString cfg.serverPort = ":8080")
    ∧ (cfg.serverPort ≠ 0 →
        portString cfg.serverPort = ":" ++ toString cfg.serverPort) := by
  refine ⟨?_, fun h0 => by simp [portString, h0],
    fun hne => by simp [portString, hne]⟩
  cases hh : inp.hashOk <;> cases hf : inp.firstOrCreateOk <;>
    cases hr : inp.runOk <;>
    simp [runMain, hcfg, hdb, hmig, hh, hf, hr]

/-- Witness for C10: with port 0 the listen address is `":8080"`, with
port 3000 it is `":3000"`. -/
theorem listen_address_from_port_witness :
    Event.listen ":8080" ∈
      (runMain (fun _ _ => "H")
        ⟨some ⟨"", "", "d", 0⟩, true, true, true, true, true⟩ []).events
    ∧ Event.listen ":3000" ∈
      (runMain (fun _ _ => "H")
        ⟨some ⟨"", "", "d", 3000⟩, true, true, true, true, true⟩ []).events := by
  have h0 := listen_address_from_port (fun _ _ => "H")
    ⟨some ⟨"", "", "d", 0⟩, true, true, true, true, true⟩ [] ⟨"", "", "d", 0⟩
    rfl rfl rfl
  have h3 := listen_address_from_port (fun _ _ => "H")
    ⟨some ⟨"", "", "d", 3000⟩, true, true, true, true, true⟩ [] ⟨"", "", "d", 3000⟩
    rfl rfl rfl
  refine ⟨?_, ?_⟩
  · have := h0.1
    rwa [h0.2.1 rfl] at this
  · have := h3.1
    rwa [h3.2.2 (by decide)] at this
